import Mathlib

/-!
Verification of the transmitter state machine from `src/lasertag/transmitter.c`.

The C module is a tick-driven finite state machine over module-level globals:
`currentState` (enum of init_st/wait_st/sig_high_st/sig_low_st),
`signalTimer` (uint16_t), `continuousModeOn` (bool), `running` (volatile bool),
`pulseWidth` (uint32_t), `currentFrequency` (uint8_t) and `period` (uint16_t).
We embed the globals as a record `TxState`, machine integers as `Nat` with
explicit `% 2^w` at every store/increment where the C type truncates, and the
externally supplied `filter_frequencyTickTable` as a function `Nat → Nat`
passed to the operations that read it.  The pin driven through `mio_writePin`
is modelled as a field `pin` recording the last level written
(`true` = TRANSMITTER_HIGH_VALUE, `false` = TRANSMITTER_LOW_VALUE).
-/

/-- The `transmitter_st_t` enumeration from transmitter.c. -/
inductive transmitter_st where
  | init_st
  | wait_st
  | sig_high_st
  | sig_low_st
deriving DecidableEq

/-- The module-level state of transmitter.c. -/
structure TxState where
  currentState : transmitter_st
  /-- uint16_t, kept `< 65536`. -/
  signalTimer : Nat
  continuousModeOn : Bool
  running : Bool
  /-- uint32_t, kept `< 4294967296`. -/
  pulseWidth : Nat
  /-- uint8_t, kept `< 256`. -/
  currentFrequency : Nat
  /-- uint16_t, kept `< 65536`. -/
  period : Nat
  /-- Last level written to TRANSMITTER_OUTPUT_PIN. -/
  pin : Bool
deriving DecidableEq

/-- `transmitter_tick`: transition logic then action logic, one step.
`tbl` is the external `filter_frequencyTickTable`. -/
def transmitter_tick (tbl : Nat → Nat) (s : TxState) : TxState :=
  let s1 :=
    match s.currentState with
    | .init_st => { s with currentState := .wait_st }
    | .wait_st =>
        if s.running then
          { s with
            running := if s.continuousModeOn then s.running else false,
            pin := true,
            period := tbl s.currentFrequency % 65536,
            signalTimer := 0,
            currentState := .sig_high_st }
        else s
    | .sig_high_st =>
        if s.signalTimer % s.period > s.period / 2 then
          { s with currentState := .sig_low_st, pin := false }
        else s
    | .sig_low_st =>
        if s.signalTimer > s.pulseWidth then
          { s with currentState := .wait_st }
        else if s.signalTimer % s.period < s.period / 2 then
          { s with currentState := .sig_high_st, pin := true }
        else s
  match s1.currentState with
  | .sig_high_st => { s1 with signalTimer := (s1.signalTimer + 1) % 65536 }
  | .sig_low_st => { s1 with signalTimer := (s1.signalTimer + 1) % 65536 }
  | _ => s1

/-- `transmitter_init`: reset state, timer, run flag; re-read the period for
the current frequency selection (the `mio_` calls are external side effects
with no state-machine content). -/
def transmitter_init (tbl : Nat → Nat) (s : TxState) : TxState :=
  { s with
    currentState := .init_st,
    signalTimer := 0,
    running := false,
    period := tbl s.currentFrequency % 65536 }

/-- `transmitter_run`: latch the run request. -/
def transmitter_run (s : TxState) : TxState := { s with running := true }

/-- `transmitter_running`: returns the `running` flag. -/
def transmitter_running (s : TxState) : Bool := s.running

/-- `transmitter_setFrequencyNumber`: the uint16_t argument is stored into the
uint8_t field `currentFrequency`, truncating modulo 256. -/
def transmitter_setFrequencyNumber (frequencyNumber : Nat) (s : TxState) : TxState :=
  { s with currentFrequency := frequencyNumber % 256 }

/-- `transmitter_getFrequencyNumber`. -/
def transmitter_getFrequencyNumber (s : TxState) : Nat := s.currentFrequency

/-- `transmitter_setContinuousMode` (identical body to
`transmitter_setContinuousModeOn`). -/
def transmitter_setContinuousMode (continuousModeFlag : Bool) (s : TxState) : TxState :=
  { s with continuousModeOn := continuousModeFlag }

/-- `transmitter_setPulseWidth`: store into the uint32_t `pulseWidth`. -/
def transmitter_setPulseWidth (width : Nat) (s : TxState) : TxState :=
  { s with pulseWidth := width % 4294967296 }

/-- `k` consecutive calls of `transmitter_tick`. -/
def applyTicks (tbl : Nat → Nat) : Nat → TxState → TxState
  | 0, s => s
  | k + 1, s => transmitter_tick tbl (applyTicks tbl k s)

/-- One public operation of the module, for reasoning about call sequences. -/
inductive TxOp where
  | tick
  | run
  | setFrequencyNumber (n : Nat)
  | setContinuousMode (b : Bool)
  | setPulseWidth (w : Nat)
deriving DecidableEq

/-- Apply one operation. -/
def applyOp (tbl : Nat → Nat) : TxOp → TxState → TxState
  | .tick, s => transmitter_tick tbl s
  | .run, s => transmitter_run s
  | .setFrequencyNumber n, s => transmitter_setFrequencyNumber n s
  | .setContinuousMode b, s => transmitter_setContinuousMode b s
  | .setPulseWidth w, s => transmitter_setPulseWidth w s

/-- Apply a sequence of operations, leftmost first. -/
def applyOps (tbl : Nat → Nat) : List TxOp → TxState → TxState
  | [], s => s
  | op :: rest, s => applyOps tbl rest (applyOp tbl op s)

/-- A frequency table returning period 10 for every index (used in concrete
traces; the table is external to the module). -/
def tbl10 : Nat → Nat := fun _ => 10

/-- The state of the machine `k` ticks into a burst (the Wait→SignalHigh tick
counts as tick 1): the timer equals `k`, the run flag is clear, the burst
snapshot fields are `pulseWidth = P`, `currentFrequency = c`, `period = T`,
and the machine is in the high sub-phase exactly when `(k - 1) % T ≤ T / 2`. -/
def goodState (P T c k : Nat) : TxState :=
  if (k - 1) % T ≤ T / 2 then
    ⟨.sig_high_st, k, false, false, P, c, T, true⟩
  else
    ⟨.sig_low_st, k, false, false, P, c, T, false⟩

/-! ## Single-step lemmas -/

lemma tick_stuck_high_period_one (tbl : Nat → Nat) (s : TxState)
    (hs : s.currentState = .sig_high_st) (hp : s.period = 1) :
    (transmitter_tick tbl s).currentState = .sig_high_st
      ∧ (transmitter_tick tbl s).period = 1 := by
  obtain ⟨st, tm, cm, rn, pw, cf, pd, pn⟩ := s
  simp only [] at hs hp
  subst hs; subst hp
  simp [transmitter_tick, Nat.mod_one]

lemma stuck_high_forever (k : Nat) :
    (applyTicks (fun _ => 1) (k + 1)
        ⟨.wait_st, 0, false, true, 1, 0, 1, false⟩).currentState = .sig_high_st
      ∧ (applyTicks (fun _ => 1) (k + 1)
        ⟨.wait_st, 0, false, true, 1, 0, 1, false⟩).period = 1 := by
  induction k with
  | zero => exact ⟨by decide, by decide⟩
  | succ n ih =>
      exact tick_stuck_high_period_one (fun _ => 1) _ ih.1 ih.2

/-! ## Claim theorems -/

/-- C1 (the claim states: after init, `running()` is true iff the machine is
in SignalHigh or SignalLow, or in Wait with a pending run request).  The code
violates this: evaluating the call sequence init(); tick(); run(); tick() in
non-continuous mode leaves the machine in SignalHigh with a burst in flight,
yet `transmitter_running()` returns false, because the Wait→SignalHigh
transition clears the run flag and `transmitter_running` returns only that
flag. -/
theorem C1_running_false_during_burst :
    (applyTicks tbl10 1 (transmitter_run (applyTicks tbl10 1
      (transmitter_init tbl10 ⟨.init_st, 0, false, false, 200, 0, 0, false⟩)))).currentState
      = transmitter_st.sig_high_st
    ∧ transmitter_running (applyTicks tbl10 1 (transmitter_run (applyTicks tbl10 1
      (transmitter_init tbl10 ⟨.init_st, 0, false, false, 200, 0, 0, false⟩)))) = false := by
  exact ⟨by decide, by decide⟩

/-- C2 counterexample: with PulseWidth P = 1 and Period T = 1 (so T ≤ P, a
pair the claim quantifies over), a single `run()` in non-continuous mode never
returns the machine to Wait: `signalTimer % 1 > 1 / 2` is unsatisfiable, so
after the Wait→SignalHigh tick every later tick leaves the machine in
SignalHigh, refuting the claimed return to Wait after the burst. -/
theorem C2_counterexample_period_one_never_waits :
    ¬ ∃ K, 1 ≤ K ∧ (applyTicks (fun _ => 1) K
      ⟨.wait_st, 0, false, true, 1, 0, 1, false⟩).currentState
        = transmitter_st.wait_st := by
  rintro ⟨K, hK, hw⟩
  rcases K with _ | k
  · omega
  · rw [(stuck_high_forever k).1] at hw
    exact absurd hw (by decide)

/-- C5 counterexample: in non-continuous mode, with the machine mid-burst in
SignalHigh (timer 3, period 10, pulse width 10), an extra `run()` call is not
a no-op: it changes the pending-run flag immediately, and 16 ticks later the
machine is in SignalHigh (a second burst) where without the extra `run()` it
would be idle in Wait. -/
theorem C5_counterexample_run_mid_burst :
    transmitter_run (⟨.sig_high_st, 3, false, false, 10, 0, 10, true⟩ : TxState)
      ≠ (⟨.sig_high_st, 3, false, false, 10, 0, 10, true⟩ : TxState)
    ∧ (applyTicks tbl10 16 (transmitter_run
        ⟨.sig_high_st, 3, false, false, 10, 0, 10, true⟩)).currentState
      ≠ (applyTicks tbl10 16
        (⟨.sig_high_st, 3, false, false, 10, 0, 10, true⟩ : TxState)).currentState := by
  exact ⟨by decide, by decide⟩

/-- C5 amended: in non-continuous mode, `run()` during a burst only sets the
pending-run flag (which the burst start had cleared); the in-flight burst's
state, timer, pin level and period evolve exactly as without the call, and the
flag stays latched through burst ticks — it triggers one additional burst when
the machine returns to Wait, so `run()` is not idempotent mid-burst. -/
theorem C5_amended_run_sets_flag_only (tbl : Nat → Nat) (s : TxState)
    (h : s.currentState = .sig_high_st ∨ s.currentState = .sig_low_st) :
    transmitter_run s = { s with running := true }
    ∧ (transmitter_tick tbl (transmitter_run s)).currentState
        = (transmitter_tick tbl s).currentState
    ∧ (transmitter_tick tbl (transmitter_run s)).signalTimer
        = (transmitter_tick tbl s).signalTimer
    ∧ (transmitter_tick tbl (transmitter_run s)).pin = (transmitter_tick tbl s).pin
    ∧ (transmitter_tick tbl (transmitter_run s)).period = (transmitter_tick tbl s).period
    ∧ (transmitter_tick tbl (transmitter_run s)).running = true := by
  obtain ⟨st, tm, cm, rn, pw, cf, pd, pn⟩ := s
  rcases h with h | h <;> simp only [] at h <;> subst h
  · by_cases hc : pd / 2 < tm % pd <;>
      simp [transmitter_tick, transmitter_run, hc]
  · by_cases h1 : pw < tm
    · simp [transmitter_tick, transmitter_run, h1]
    · by_cases h2 : tm % pd < pd / 2 <;>
        simp [transmitter_tick, transmitter_run, h1, h2]

/-- C5 amended, witness at a concrete burst state. -/
theorem C5_amended_run_sets_flag_only_witness :
    transmitter_run (⟨.sig_high_st, 3, false, false, 10, 0, 10, true⟩ : TxState)
      = { (⟨.sig_high_st, 3, false, false, 10, 0, 10, true⟩ : TxState) with running := true }
    ∧ (transmitter_tick tbl10 (transmitter_run
        ⟨.sig_high_st, 3, false, false, 10, 0, 10, true⟩)).running = true :=
  ⟨(C5_amended_run_sets_flag_only tbl10 _ (Or.inl rfl)).1,
   (C5_amended_run_sets_flag_only tbl10 _ (Or.inl rfl)).2.2.2.2.2⟩

/-- C6 counterexample: continuous mode on, machine in SignalLow with timer 11
past the pulse width 10 and the run flag still latched; `setContinuousMode
false` is called.  The burst completes to Wait on the next tick, but one tick
later the machine is back in SignalHigh — it re-arms once more, refuting
"never re-enters SignalHigh". -/
theorem C6_counterexample_rearm_once :
    (applyTicks tbl10 1 (transmitter_setContinuousMode false
      ⟨.sig_low_st, 11, true, true, 10, 0, 10, false⟩)).currentState
      = transmitter_st.wait_st
    ∧ (applyTicks tbl10 2 (transmitter_setContinuousMode false
      ⟨.sig_low_st, 11, true, true, 10, 0, 10, false⟩)).currentState
      = transmitter_st.sig_high_st := by
  exact ⟨by decide, by decide⟩

/-- C6 amended: if `setContinuousMode(false)` is called while the machine is
in SignalLow (run flag still latched from the continuous cycle), the current
burst runs to completion — the SignalLow→Wait exit preserves the flag — and
from Wait the still-pending request starts exactly one more burst, the
Wait→SignalHigh transition now clearing the flag; once the flag is clear a
tick in Wait is the identity, so the machine then stays in Wait. -/
theorem C6_amended_one_extra_burst (tbl : Nat → Nat) (s : TxState) :
    (s.currentState = .sig_low_st → s.signalTimer > s.pulseWidth →
      (transmitter_tick tbl s).currentState = .wait_st
        ∧ (transmitter_tick tbl s).running = s.running)
    ∧ (s.currentState = .wait_st → s.running = true → s.continuousModeOn = false →
      (transmitter_tick tbl s).currentState = .sig_high_st
        ∧ (transmitter_tick tbl s).running = false)
    ∧ (s.currentState = .wait_st → s.running = false → transmitter_tick tbl s = s) := by
  obtain ⟨st, tm, cm, rn, pw, cf, pd, pn⟩ := s
  refine ⟨?_, ?_, ?_⟩ <;> intro h <;> simp only [] at h <;> subst h
  · intro hgt
    simp [transmitter_tick, hgt]
  · intro hr hc
    simp only [] at hr hc; subst hr; subst hc
    simp [transmitter_tick]
  · intro hr
    simp only [] at hr; subst hr
    simp [transmitter_tick]

/-- C6 amended, witness: the three conjuncts applied at concrete states. -/
theorem C6_amended_one_extra_burst_witness :
    ((transmitter_tick tbl10 ⟨.sig_low_st, 11, false, true, 10, 0, 10, false⟩).currentState
        = transmitter_st.wait_st
      ∧ (transmitter_tick tbl10 ⟨.sig_low_st, 11, false, true, 10, 0, 10, false⟩).running
        = true)
    ∧ ((transmitter_tick tbl10 ⟨.wait_st, 11, false, true, 10, 0, 10, false⟩).currentState
        = transmitter_st.sig_high_st
      ∧ (transmitter_tick tbl10 ⟨.wait_st, 11, false, true, 10, 0, 10, false⟩).running
        = false)
    ∧ transmitter_tick tbl10 ⟨.wait_st, 11, false, false, 10, 0, 10, false⟩
        = ⟨.wait_st, 11, false, false, 10, 0, 10, false⟩ :=
  ⟨(C6_amended_one_extra_burst tbl10
      ⟨.sig_low_st, 11, false, true, 10, 0, 10, false⟩).1 rfl (by decide),
   (C6_amended_one_extra_burst tbl10
      ⟨.wait_st, 11, false, true, 10, 0, 10, false⟩).2.1 rfl rfl rfl,
   (C6_amended_one_extra_burst tbl10
      ⟨.wait_st, 11, false, false, 10, 0, 10, false⟩).2.2 rfl rfl⟩

/-- C7 counterexample: with Period 10 and PulseWidth 25, starting in
SignalHigh with timer 0, after the tick that reads timer 26 (tick 27) the
machine is in SignalLow, not Wait: the burst-duration check is evaluated only
in the low sub-phase, so at timer 26 (high sub-phase, 26 mod 10 = 6 > 5) the
machine first drops to SignalLow, refuting "returns to Wait when timer = 26,
regardless of whether it is in the high or low sub-phase". -/
theorem C7_counterexample_no_wait_at_26 :
    (applyTicks tbl10 27 ⟨.sig_high_st, 0, false, false, 25, 0, 10, true⟩).currentState
      = transmitter_st.sig_low_st
    ∧ (applyTicks tbl10 27 ⟨.sig_high_st, 0, false, false, 25, 0, 10, true⟩).currentState
      ≠ transmitter_st.wait_st := by
  exact ⟨by decide, by decide⟩

/-- C7 amended: with Period 10 and PulseWidth 25, starting from SignalHigh
with timer 0, the machine transitions to SignalLow at timer 6, back to
SignalHigh at timer 10, to SignalLow at timer 16, back to SignalHigh at
timer 20, to SignalLow again at timer 26, and returns to Wait at timer 27:
the burst-duration check fires only in the low sub-phase, so the exit is one
tick after the high→low drop at 26.  (The tick that reads timer value t is
tick t+1 of the trace; `applyTicks k` below is the state after k ticks.) -/
theorem C7_amended_trace :
    (applyTicks tbl10 6 ⟨.sig_high_st, 0, false, false, 25, 0, 10, true⟩).currentState
      = transmitter_st.sig_high_st
    ∧ (applyTicks tbl10 7 ⟨.sig_high_st, 0, false, false, 25, 0, 10, true⟩).currentState
      = transmitter_st.sig_low_st
    ∧ (applyTicks tbl10 10 ⟨.sig_high_st, 0, false, false, 25, 0, 10, true⟩).currentState
      = transmitter_st.sig_low_st
    ∧ (applyTicks tbl10 11 ⟨.sig_high_st, 0, false, false, 25, 0, 10, true⟩).currentState
      = transmitter_st.sig_high_st
    ∧ (applyTicks tbl10 16 ⟨.sig_high_st, 0, false, false, 25, 0, 10, true⟩).currentState
      = transmitter_st.sig_high_st
    ∧ (applyTicks tbl10 17 ⟨.sig_high_st, 0, false, false, 25, 0, 10, true⟩).currentState
      = transmitter_st.sig_low_st
    ∧ (applyTicks tbl10 20 ⟨.sig_high_st, 0, false, false, 25, 0, 10, true⟩).currentState
      = transmitter_st.sig_low_st
    ∧ (applyTicks tbl10 21 ⟨.sig_high_st, 0, false, false, 25, 0, 10, true⟩).currentState
      = transmitter_st.sig_high_st
    ∧ (applyTicks tbl10 26 ⟨.sig_high_st, 0, false, false, 25, 0, 10, true⟩).currentState
      = transmitter_st.sig_high_st
    ∧ (applyTicks tbl10 27 ⟨.sig_high_st, 0, false, false, 25, 0, 10, true⟩).currentState
      = transmitter_st.sig_low_st
    ∧ (applyTicks tbl10 28 ⟨.sig_high_st, 0, false, false, 25, 0, 10, true⟩).currentState
      = transmitter_st.wait_st := by
  refine ⟨?_, ?_, ?_, ?_, ?_, ?_, ?_, ?_, ?_, ?_, ?_⟩ <;> decide

/-- C8 counterexample: with PulseWidth 0 and Period 10, after `run()` the
machine enters SignalHigh on tick 1, but it does NOT return to Wait on the
next tick (the claim's "single-tick pulse"): the burst-duration comparison is
evaluated only in SignalLow, so tick 2 leaves the machine in SignalHigh. -/
theorem C8_counterexample_not_single_tick :
    (applyTicks tbl10 1 ⟨.wait_st, 0, false, true, 0, 0, 7, false⟩).currentState
      = transmitter_st.sig_high_st
    ∧ (applyTicks tbl10 2 ⟨.wait_st, 0, false, true, 0, 0, 7, false⟩).currentState
      = transmitter_st.sig_high_st
    ∧ (applyTicks tbl10 2 ⟨.wait_st, 0, false, true, 0, 0, 7, false⟩).currentState
      ≠ transmitter_st.wait_st := by
  refine ⟨?_, ?_, ?_⟩ <;> decide

/-- C8 amended: with PulseWidth 0 (Period 10), after `run()` in
non-continuous mode the machine enters SignalHigh and stays high through the
first half-period, because the burst-duration check is evaluated only in
SignalLow; it drops to SignalLow on the tick reading timer 6, and on the
first SignalLow tick the timer (7) already exceeds 0, so it returns to Wait
then — a single half-cycle, not a single-tick pulse.  The boundary condition
is `>` and not `≥`: with PulseWidth 7 the machine stays in SignalLow when the
timer equals 7 and exits only when the timer reaches 8. -/
theorem C8_amended_half_cycle :
    (applyTicks tbl10 1 ⟨.wait_st, 0, false, true, 0, 0, 7, false⟩).currentState
      = transmitter_st.sig_high_st
    ∧ (applyTicks tbl10 6 ⟨.wait_st, 0, false, true, 0, 0, 7, false⟩).currentState
      = transmitter_st.sig_high_st
    ∧ (applyTicks tbl10 7 ⟨.wait_st, 0, false, true, 0, 0, 7, false⟩).currentState
      = transmitter_st.sig_low_st
    ∧ (applyTicks tbl10 8 ⟨.wait_st, 0, false, true, 0, 0, 7, false⟩).currentState
      = transmitter_st.wait_st
    ∧ (applyTicks tbl10 8 ⟨.wait_st, 0, false, true, 7, 0, 7, false⟩).currentState
      = transmitter_st.sig_low_st
    ∧ (applyTicks tbl10 8 ⟨.wait_st, 0, false, true, 7, 0, 7, false⟩).signalTimer = 8
    ∧ (applyTicks tbl10 9 ⟨.wait_st, 0, false, true, 7, 0, 7, false⟩).currentState
      = transmitter_st.wait_st := by
  refine ⟨?_, ?_, ?_, ?_, ?_, ?_, ?_⟩ <;> decide

/-- C9 counterexample: `setFrequencyNumber` accepts any uint16_t value, but
stores it in the uint8_t `currentFrequency`; for n = 256 (a value the
uint16_t parameter accepts) the getter returns 0, not 256, so the pair does
not round-trip for every accepted value. -/
theorem C9_counterexample_truncation :
    transmitter_getFrequencyNumber (transmitter_setFrequencyNumber 256
      ⟨.wait_st, 0, false, false, 200, 0, 10, false⟩) = 0
    ∧ transmitter_getFrequencyNumber (transmitter_setFrequencyNumber 256
      ⟨.wait_st, 0, false, false, 200, 0, 10, false⟩) ≠ 256 := by
  exact ⟨by decide, by decide⟩

/-- C9 amended: `setFrequencyNumber(n)` followed by `getFrequencyNumber()`
returns n mod 256 (the uint8_t field truncates the uint16_t argument), so the
pair round-trips exactly for n < 256 and not otherwise. -/
theorem C9_amended_roundtrip_mod_256 (n : Nat) (s : TxState) :
    transmitter_getFrequencyNumber (transmitter_setFrequencyNumber n s) = n % 256 := by
  simp [transmitter_getFrequencyNumber, transmitter_setFrequencyNumber]

/-- C3: `setFrequencyNumber` never touches the cached period; a tick taken in
SignalHigh or SignalLow leaves the period unchanged, so the burst in flight
keeps its snapshot; the period is re-read from the frequency table exactly on
a Wait→SignalHigh transition (pending run request) and by `init`. -/
theorem C3_period_snapshot (tbl : Nat → Nat) (n : Nat) (s : TxState) :
    (transmitter_setFrequencyNumber n s).period = s.period
    ∧ (s.currentState = .sig_high_st ∨ s.currentState = .sig_low_st →
        (transmitter_tick tbl s).period = s.period)
    ∧ (s.currentState = .wait_st → s.running = true →
        (transmitter_tick tbl s).period = tbl s.currentFrequency % 65536)
    ∧ (transmitter_init tbl s).period = tbl s.currentFrequency % 65536 := by
  obtain ⟨st, tm, cm, rn, pw, cf, pd, pn⟩ := s
  refine ⟨rfl, ?_, ?_, rfl⟩
  · intro h
    rcases h with h | h <;> simp only [] at h <;> subst h
    · by_cases hc : pd / 2 < tm % pd <;> simp [transmitter_tick, hc]
    · by_cases h1 : pw < tm
      · simp [transmitter_tick, h1]
      · by_cases h2 : tm % pd < pd / 2 <;> simp [transmitter_tick, h1, h2]
  · intro h hr
    simp only [] at h hr; subst h; subst hr
    simp [transmitter_tick]

/-- C3 witness: the conjuncts applied at concrete states (a mid-burst state
for the snapshot part, a Wait state with a pending run for the re-read). -/
theorem C3_period_snapshot_witness :
    (transmitter_setFrequencyNumber 7
      (⟨.sig_high_st, 3, false, false, 25, 0, 10, true⟩ : TxState)).period = 10
    ∧ (transmitter_tick tbl10
      (⟨.sig_high_st, 3, false, false, 25, 0, 10, true⟩ : TxState)).period = 10
    ∧ (transmitter_tick tbl10
      (⟨.wait_st, 0, false, true, 25, 0, 3, false⟩ : TxState)).period = tbl10 0 % 65536 :=
  ⟨(C3_period_snapshot tbl10 7 ⟨.sig_high_st, 3, false, false, 25, 0, 10, true⟩).1,
   (C3_period_snapshot tbl10 7 ⟨.sig_high_st, 3, false, false, 25, 0, 10, true⟩).2.1
     (Or.inl rfl),
   (C3_period_snapshot tbl10 7 ⟨.wait_st, 0, false, true, 25, 0, 3, false⟩).2.2.1
     rfl rfl⟩

lemma tick_keeps_continuous_running (tbl : Nat → Nat) (s : TxState)
    (h1 : s.running = true) (h2 : s.continuousModeOn = true) :
    (transmitter_tick tbl s).running = true
      ∧ (transmitter_tick tbl s).continuousModeOn = true := by
  obtain ⟨st, tm, cm, rn, pw, cf, pd, pn⟩ := s
  simp only [] at h1 h2; subst h1; subst h2
  cases st with
  | init_st => simp [transmitter_tick]
  | wait_st => simp [transmitter_tick]
  | sig_high_st =>
      by_cases hc : pd / 2 < tm % pd <;> simp [transmitter_tick, hc]
  | sig_low_st =>
      by_cases hg : pw < tm
      · simp [transmitter_tick, hg]
      · by_cases h2' : tm % pd < pd / 2 <;> simp [transmitter_tick, hg, h2']

lemma applyOp_keeps_continuous_running (tbl : Nat → Nat) (op : TxOp) (s : TxState)
    (h1 : s.running = true) (h2 : s.continuousModeOn = true)
    (hop : op ≠ TxOp.setContinuousMode false) :
    (applyOp tbl op s).running = true
      ∧ (applyOp tbl op s).continuousModeOn = true := by
  cases op with
  | tick => exact tick_keeps_continuous_running tbl s h1 h2
  | run => exact ⟨rfl, h2⟩
  | setFrequencyNumber n => exact ⟨h1, h2⟩
  | setContinuousMode b =>
      cases b
      · exact absurd rfl hop
      · exact ⟨h1, rfl⟩
  | setPulseWidth w => exact ⟨h1, h2⟩

lemma applyOps_keeps_continuous_running (tbl : Nat → Nat) (ops : List TxOp) :
    ∀ s : TxState, s.running = true → s.continuousModeOn = true →
      TxOp.setContinuousMode false ∉ ops →
      (applyOps tbl ops s).running = true
        ∧ (applyOps tbl ops s).continuousModeOn = true := by
  induction ops with
  | nil => exact fun s h1 h2 _ => ⟨h1, h2⟩
  | cons op rest ih =>
      intro s h1 h2 hops
      have hop : op ≠ TxOp.setContinuousMode false := by
        intro e
        exact hops (e ▸ List.mem_cons_self op rest)
      have hk := applyOp_keeps_continuous_running tbl op s h1 h2 hop
      exact ih _ hk.1 hk.2 (fun hm => hops (List.mem_cons_of_mem _ hm))

/-- C4: in continuous mode, once the run request is latched, no sequence of
public operations that avoids `setContinuousMode(false)` ever makes
`running()` return false: ticks in the Wait state re-arm without clearing the
flag while continuous mode is on, and no other operation clears it. -/
theorem C4_continuous_running_latched (tbl : Nat → Nat) (ops : List TxOp) (s : TxState)
    (h1 : transmitter_running s = true) (h2 : s.continuousModeOn = true)
    (hops : TxOp.setContinuousMode false ∉ ops) :
    transmitter_running (applyOps tbl ops s) = true := by
  simp only [transmitter_running] at h1 ⊢
  exact (applyOps_keeps_continuous_running tbl ops s h1 h2 hops).1

/-- C4 witness: a concrete continuous-mode state and a concrete operation
sequence (ticks through Wait, a redundant `run()`, frequency and pulse-width
changes, a redundant `setContinuousMode(true)`). -/
theorem C4_continuous_running_latched_witness :
    transmitter_running (applyOps tbl10
      [TxOp.tick, TxOp.run, TxOp.setFrequencyNumber 3, TxOp.setPulseWidth 100,
       TxOp.setContinuousMode true, TxOp.tick, TxOp.tick]
      ⟨.wait_st, 0, true, true, 10, 0, 10, false⟩) = true :=
  C4_continuous_running_latched tbl10 _
    ⟨.wait_st, 0, true, true, 10, 0, 10, false⟩ rfl rfl (by decide)

lemma tick_wrap_inv (tbl : Nat → Nat) (s : TxState)
    (h1 : s.currentState = .sig_high_st ∨ s.currentState = .sig_low_st)
    (h2 : s.signalTimer < 65536) (h3 : 65536 ≤ s.pulseWidth) :
    ((transmitter_tick tbl s).currentState = .sig_high_st
        ∨ (transmitter_tick tbl s).currentState = .sig_low_st)
      ∧ (transmitter_tick tbl s).signalTimer < 65536
      ∧ (transmitter_tick tbl s).pulseWidth = s.pulseWidth := by
  obtain ⟨st, tm, cm, rn, pw, cf, pd, pn⟩ := s
  simp only [] at h2 h3
  rcases h1 with h | h <;> simp only [] at h <;> subst h
  · by_cases hc : pd / 2 < tm % pd <;>
      simp [transmitter_tick, hc] <;> omega
  · have hng : ¬ tm > pw := by omega
    by_cases h2' : tm % pd < pd / 2 <;>
      simp [transmitter_tick, hng, h2'] <;> omega

lemma ticks_wrap_inv (tbl : Nat → Nat) (k : Nat) (s : TxState)
    (h1 : s.currentState = .sig_high_st ∨ s.currentState = .sig_low_st)
    (h2 : s.signalTimer < 65536) (h3 : 65536 ≤ s.pulseWidth) :
    ((applyTicks tbl k s).currentState = .sig_high_st
        ∨ (applyTicks tbl k s).currentState = .sig_low_st)
      ∧ (applyTicks tbl k s).signalTimer < 65536
      ∧ (applyTicks tbl k s).pulseWidth = s.pulseWidth := by
  induction k with
  | zero => exact ⟨h1, h2, rfl⟩
  | succ n ih =>
      have hstep := tick_wrap_inv tbl (applyTicks tbl n s) ih.1 ih.2.1
        (ih.2.2 ▸ h3)
      exact ⟨hstep.1, hstep.2.1, hstep.2.2.trans ih.2.2⟩

/-- C10: if `setPulseWidth` is called with any uint32_t width ≥ 2^16 while a
burst is in flight (machine in SignalHigh or SignalLow, 16-bit timer in
range), then for every number of subsequent ticks the machine is still in
SignalHigh or SignalLow — it never returns to Wait — and the burst-duration
comparison `signalTimer > pulseWidth` is never satisfied, because the timer
wraps modulo 2^16 on increment and so never exceeds the pulse width. -/
theorem C10_wrap_never_returns_to_wait (tbl : Nat → Nat) (s : TxState) (width k : Nat)
    (hw1 : width < 4294967296) (hw2 : 65536 ≤ width)
    (ht : s.signalTimer < 65536)
    (hs : s.currentState = .sig_high_st ∨ s.currentState = .sig_low_st) :
    ((applyTicks tbl k (transmitter_setPulseWidth width s)).currentState
        = transmitter_st.sig_high_st
      ∨ (applyTicks tbl k (transmitter_setPulseWidth width s)).currentState
        = transmitter_st.sig_low_st)
    ∧ (applyTicks tbl k (transmitter_setPulseWidth width s)).signalTimer
        ≤ (applyTicks tbl k (transmitter_setPulseWidth width s)).pulseWidth := by
  have hpw : (transmitter_setPulseWidth width s).pulseWidth = width := by
    simp [transmitter_setPulseWidth, Nat.mod_eq_of_lt hw1]
  have hinv := ticks_wrap_inv tbl k (transmitter_setPulseWidth width s) hs ht
    (by rw [hpw]; exact hw2)
  refine ⟨hinv.1, ?_⟩
  have h65 := hinv.2.1
  have hpw2 := hinv.2.2
  rw [hpw2, hpw]
  omega

/-- C10 witness: a concrete mid-burst state, width 2^16, three ticks. -/
theorem C10_wrap_never_returns_to_wait_witness :
    ((applyTicks tbl10 3 (transmitter_setPulseWidth 65536
        (⟨.sig_high_st, 5, false, false, 7, 0, 10, true⟩ : TxState))).currentState
        = transmitter_st.sig_high_st
      ∨ (applyTicks tbl10 3 (transmitter_setPulseWidth 65536
        (⟨.sig_high_st, 5, false, false, 7, 0, 10, true⟩ : TxState))).currentState
        = transmitter_st.sig_low_st)
    ∧ (applyTicks tbl10 3 (transmitter_setPulseWidth 65536
        (⟨.sig_high_st, 5, false, false, 7, 0, 10, true⟩ : TxState))).signalTimer
        ≤ (applyTicks tbl10 3 (transmitter_setPulseWidth 65536
        (⟨.sig_high_st, 5, false, false, 7, 0, 10, true⟩ : TxState))).pulseWidth :=
  C10_wrap_never_returns_to_wait tbl10 ⟨.sig_high_st, 5, false, false, 7, 0, 10, true⟩
    65536 3 (by decide) (by decide) (by decide) (Or.inl rfl)

lemma mod_pred (k T : Nat) (hk : 1 ≤ k) (h : k % T ≠ 0) :
    (k - 1) % T = k % T - 1 := by
  rcases Nat.eq_zero_or_pos T with hT | hT
  · subst hT; simp
  · have hd := Nat.div_add_mod k T
    have hr : k % T < T := Nat.mod_lt _ hT
    have h1 : k - 1 = T * (k / T) + (k % T - 1) := by omega
    rw [h1, Nat.mul_add_mod]
    exact Nat.mod_eq_of_lt (by omega)

lemma tick_goodState (tbl : Nat → Nat) (P T c k : Nat) (hT : 2 ≤ T) (hk : 1 ≤ k)
    (hk2 : k + 1 < 65536) (hlow : T / 2 < (k - 1) % T → k ≤ P) :
    transmitter_tick tbl (goodState P T c k) = goodState P T c (k + 1) := by
  have hmod : (k + 1) % 65536 = k + 1 := Nat.mod_eq_of_lt hk2
  by_cases h1 : (k - 1) % T ≤ T / 2
  · by_cases h2 : T / 2 < k % T
    · simp only [goodState, if_pos h1, Nat.add_sub_cancel, if_neg (not_le.mpr h2)]
      simp [transmitter_tick, h2, hmod]
    · simp only [goodState, if_pos h1, Nat.add_sub_cancel, if_pos (not_lt.mp h2)]
      simp [transmitter_tick, h2, hmod]
  · have hkP : k ≤ P := hlow (by omega)
    have h2 : ¬ k % T = T / 2 := by
      intro he
      have h0 : k % T ≠ 0 := by omega
      have := mod_pred k T hk h0
      omega
    by_cases h3 : k % T < T / 2
    · simp only [goodState, if_neg h1, Nat.add_sub_cancel, if_pos (le_of_lt h3)]
      simp [transmitter_tick, h3, hmod, Nat.not_lt.mpr hkP]
    · have h4 : T / 2 < k % T := by omega
      simp only [goodState, if_neg h1, Nat.add_sub_cancel, if_neg (not_le.mpr h4)]
      simp [transmitter_tick, h3, hmod, Nat.not_lt.mpr hkP]

lemma tick_burst_start (tbl : Nat → Nat) (P T c : Nat) (s : TxState)
    (hs : s.currentState = .wait_st) (hr : s.running = true)
    (hc : s.continuousModeOn = false) (hpw : s.pulseWidth = P)
    (hf : s.currentFrequency = c) (htbl : tbl c % 65536 = T) :
    transmitter_tick tbl s = goodState P T c 1 := by
  obtain ⟨st, tm, cm, rn, pw, cf, pd, pn⟩ := s
  simp only [] at hs hr hc hpw hf
  subst hs; subst hr; subst hc; subst hpw; subst hf
  simp [transmitter_tick, goodState, htbl]

/-- C2 amended: for PulseWidth P and Period T with 3 ≤ T ≤ P and
P + T + 1 < 2^16 (so the 16-bit timer cannot wrap and the high→low half-cycle
condition is satisfiable), a single `run()` in non-continuous mode starting
from Wait produces one burst in which the pin is HIGH on the tick reading
timer value t iff `t % T ≤ T / 2`, for all 0 ≤ t ≤ P (the tick reading timer
t is tick t+1 of the trace, the Wait→SignalHigh tick being tick 1, which sets
the timer to 0 before incrementing it); within T ticks after the timer passes
P the machine returns to Wait with `running()` false.  The claim's original
unrestricted quantification fails: for T ∈ {1, 2} the machine never leaves
SignalHigh (see the counterexample), and for P ≥ 2^16 the timer wraps (C10). -/
theorem C2_amended_burst_waveform (tbl : Nat → Nat) (c P T : Nat) (s : TxState)
    (hT : 3 ≤ T) (hTP : T ≤ P) (hrange : P + T + 1 < 65536)
    (htbl : tbl c % 65536 = T)
    (hs : s.currentState = .wait_st) (hr : s.running = true)
    (hcont : s.continuousModeOn = false) (hpw : s.pulseWidth = P)
    (hfreq : s.currentFrequency = c) :
    (∀ t, t ≤ P → (applyTicks tbl (t + 1) s).pin = decide (t % T ≤ T / 2))
    ∧ ∃ K, K ≤ P + T + 2
        ∧ (applyTicks tbl K s).currentState = transmitter_st.wait_st
        ∧ transmitter_running (applyTicks tbl K s) = false := by
  have hgood : ∀ k, 1 ≤ k → k ≤ P + 1 → applyTicks tbl k s = goodState P T c k := by
    intro k hk1 hk2
    induction k with
    | zero => omega
    | succ n ih =>
        rcases Nat.eq_zero_or_pos n with h0 | hpos
        · subst h0
          simpa [applyTicks] using
            tick_burst_start tbl P T c s hs hr hcont hpw hfreq htbl
        · have ihh := ih hpos (by omega)
          calc applyTicks tbl (n + 1) s
              = transmitter_tick tbl (applyTicks tbl n s) := rfl
            _ = transmitter_tick tbl (goodState P T c n) := by rw [ihh]
            _ = goodState P T c (n + 1) :=
                tick_goodState tbl P T c n (by omega) hpos (by omega)
                  (fun _ => by omega)
  refine ⟨?_, ?_⟩
  · intro t ht
    rw [hgood (t + 1) (by omega) (by omega)]
    by_cases hph : t % T ≤ T / 2
    · simp [goodState, Nat.add_sub_cancel, hph]
    · simp [goodState, Nat.add_sub_cancel, hph]
  · obtain ⟨jw, hjwlt, hjw⟩ : ∃ j, j < T ∧ T / 2 < (P + j) % T := by
      refine ⟨T - 1 - P % T, ?_, ?_⟩
      · have : 0 < T := by omega
        omega
      · have hTpos : 0 < T := by omega
        have hr2 : P % T < T := Nat.mod_lt _ hTpos
        have h1 : P + (T - 1 - P % T) = T * (P / T) + (T - 1) := by
          have := Nat.div_add_mod P T
          omega
        rw [h1, Nat.mul_add_mod, Nat.mod_eq_of_lt (by omega)]
        omega
    have hex : ∃ j, T / 2 < (P + j) % T := ⟨jw, hjw⟩
    have hspec : T / 2 < (P + Nat.find hex) % T := Nat.find_spec hex
    have hmin : ∀ j, j < Nat.find hex → ¬ T / 2 < (P + j) % T :=
      fun j hj => Nat.find_min hex hj
    have hj0lt : Nat.find hex < T := lt_of_le_of_lt (Nat.find_min' hex hjw) hjwlt
    have hext : ∀ d, d ≤ Nat.find hex →
        applyTicks tbl (P + 1 + d) s = goodState P T c (P + 1 + d) := by
      intro d
      induction d with
      | zero => intro _; simpa using hgood (P + 1) (by omega) (by omega)
      | succ m ihm =>
          intro hm1
          have ihh := ihm (by omega)
          have hhigh : (P + m) % T ≤ T / 2 := by
            have := hmin m (by omega)
            omega
          have hstep := tick_goodState tbl P T c (P + 1 + m) (by omega) (by omega)
            (by omega)
            (by
              intro hcon
              have he : P + 1 + m - 1 = P + m := by omega
              rw [he] at hcon
              omega)
          calc applyTicks tbl (P + 1 + (m + 1)) s
              = transmitter_tick tbl (applyTicks tbl (P + 1 + m) s) := rfl
            _ = transmitter_tick tbl (goodState P T c (P + 1 + m)) := by rw [ihh]
            _ = goodState P T c (P + 1 + m + 1) := hstep
    have hfin := hext (Nat.find hex) le_rfl
    have hlowstate : goodState P T c (P + 1 + Nat.find hex)
        = ⟨.sig_low_st, P + 1 + Nat.find hex, false, false, P, c, T, false⟩ := by
      have he : P + 1 + Nat.find hex - 1 = P + Nat.find hex := by omega
      rw [goodState, he, if_neg (by omega)]
    have heq : applyTicks tbl (P + 1 + Nat.find hex + 1) s
        = ⟨.wait_st, P + 1 + Nat.find hex, false, false, P, c, T, false⟩ := by
      have hgt : P < P + 1 + Nat.find hex := by omega
      calc applyTicks tbl (P + 1 + Nat.find hex + 1) s
          = transmitter_tick tbl (applyTicks tbl (P + 1 + Nat.find hex) s) := rfl
        _ = transmitter_tick tbl
            ⟨.sig_low_st, P + 1 + Nat.find hex, false, false, P, c, T, false⟩ := by
              rw [hfin, hlowstate]
        _ = ⟨.wait_st, P + 1 + Nat.find hex, false, false, P, c, T, false⟩ := by
              simp [transmitter_tick, hgt]
    refine ⟨P + 1 + Nat.find hex + 1, by omega, ?_, ?_⟩
    · rw [heq]
    · rw [heq]
      rfl

/-- C2 amended, witness: Period 10, PulseWidth 25, a concrete Wait state with
the run request pending. -/
theorem C2_amended_burst_waveform_witness :
    (∀ t, t ≤ 25 →
      (applyTicks tbl10 (t + 1)
        (⟨.wait_st, 0, false, true, 25, 0, 3, false⟩ : TxState)).pin
        = decide (t % 10 ≤ 10 / 2))
    ∧ ∃ K, K ≤ 25 + 10 + 2
        ∧ (applyTicks tbl10 K
            (⟨.wait_st, 0, false, true, 25, 0, 3, false⟩ : TxState)).currentState
          = transmitter_st.wait_st
        ∧ transmitter_running (applyTicks tbl10 K
            (⟨.wait_st, 0, false, true, 25, 0, 3, false⟩ : TxState)) = false :=
  C2_amended_burst_waveform tbl10 0 25 10 ⟨.wait_st, 0, false, true, 25, 0, 3, false⟩
    (by decide) (by decide) (by decide) (by decide) rfl rfl rfl rfl rfl
